import Mathlib

/-!
Verification of the Kubewarden policy-server / policy-evaluator /
policy-fetcher sources against their natural-language specification.

The Rust sources are shallowly embedded: pure functions become Lean
functions, stateful methods become explicit state passing, fallible code
returns `Except`, and external collaborators (the semver crate ordering,
the sha2 hash, the sigstore constraint verifier, the Kubernetes API) are
either modelled from their documented behaviour or taken as explicit
function parameters.
-/

namespace Kubewarden

/-! ## Semver model (the `semver` crate used by `precompiled_policy.rs`)

A `Version` is `major.minor.patch-pre+build`.  The crate's total order
compares major, minor and patch numerically, then pre-release
(a version *without* pre-release is greater than one with), then build
metadata.  Pre-release identifiers are numeric or alphanumeric; numeric
identifiers compare numerically and are smaller than alphanumeric ones.
-/

inductive SemverIdent where
  | num (n : Nat)
  | alphanum (s : String)
deriving DecidableEq, Repr

def identCmp : SemverIdent → SemverIdent → Ordering
  | .num a, .num b => compare a b
  | .num _, .alphanum _ => .lt
  | .alphanum _, .num _ => .gt
  | .alphanum a, .alphanum b => compare a b

def preListCmp : List SemverIdent → List SemverIdent → Ordering
  | [], [] => .eq
  | [], _ :: _ => .lt
  | _ :: _, [] => .gt
  | a :: as, b :: bs => (identCmp a b).then (preListCmp as bs)

/-- Pre-release comparison: an empty pre-release (a normal version) has
higher precedence than any non-empty one. -/
def prereleaseCmp (a b : List SemverIdent) : Ordering :=
  match a, b with
  | [], [] => .eq
  | [], _ :: _ => .gt
  | _ :: _, [] => .lt
  | _ :: _, _ :: _ => preListCmp a b

structure Version where
  major : Nat
  minor : Nat
  patch : Nat
  pre : List SemverIdent
  build : String
deriving DecidableEq, Repr

def Version.cmp (a b : Version) : Ordering :=
  (compare a.major b.major).then
    ((compare a.minor b.minor).then
      ((compare a.patch b.patch).then
        ((prereleaseCmp a.pre b.pre).then (compare a.build b.build))))

def Version.lt (a b : Version) : Bool :=
  Version.cmp a b == .lt

/-! ## Policy metadata (`policy_evaluator.rs` and the policy SDK) -/

inductive PolicyExecutionMode where
  | KubewardenWapc
  | Opa
  | OpaGatekeeper
  | Wasi
deriving DecidableEq, Repr

inductive ProtocolVersion where
  | Unknown
  | V1
deriving DecidableEq, Repr

/-- The metadata fields consulted by `precompiled_policy.rs`.
`execution_mode` defaults to `KubewardenWapc` (the `#[default]` variant). -/
structure Metadata where
  execution_mode : PolicyExecutionMode := .KubewardenWapc
  protocol_version : Option ProtocolVersion := none
  minimum_kubewarden_version : Option Version := none
deriving DecidableEq, Repr

instance : Inhabited Metadata := ⟨{}⟩

/-! ## `precompiled_policy.rs` -/

/-- The `KUBEWARDEN_VERSION` lazy static: the crate version with patch,
pre-release and build information removed. -/
def KUBEWARDEN_VERSION (cargoPkgVersion : Version) : Version :=
  { cargoPkgVersion with patch := 0, pre := [], build := "" }

/-- `has_minimum_kubewarden_version`: reject the policy when the running
(sanitised) version is strictly below the policy's sanitised minimum. -/
def has_minimum_kubewarden_version (kubewardenVersion : Version)
    (metadata : Metadata) : Except String Unit :=
  match metadata.minimum_kubewarden_version with
  | some minimum_kubewarden_version =>
    let sanitized_minimum_kubewarden_version : Version :=
      { major := minimum_kubewarden_version.major
        minor := minimum_kubewarden_version.minor
        patch := 0
        pre := []
        build := "" }
    if Version.lt kubewardenVersion sanitized_minimum_kubewarden_version then
      .error ("Policy required Kubewarden version "
        ++ toString sanitized_minimum_kubewarden_version.major ++ "."
        ++ toString sanitized_minimum_kubewarden_version.minor ++ ".0"
        ++ " but is running on "
        ++ toString kubewardenVersion.major ++ "."
        ++ toString kubewardenVersion.minor ++ ".0")
    else
      .ok ()
  | none => .ok ()

/-- `has_valid_protocol_version`: for `KubewardenWapc` policies the
protocol version must be present and equal to `V1`; any other execution
mode passes unconditionally. -/
def has_valid_protocol_version (metadata : Metadata) : Except String Unit :=
  if metadata.execution_mode = PolicyExecutionMode.KubewardenWapc then
    match metadata.protocol_version with
    | some ProtocolVersion.V1 => .ok ()
    | some _ =>
      .error "Policy uses an unsupported protocol version, only V1 is supported"
    | none =>
      .error "Policy is missing protocol version, which is required for KubewardenWapc execution mode"
  else
    .ok ()

/-! ### `PrecompiledPolicy::new`

The wasmtime engine's `precompile_module`, the metadata parser and the
sha2 hash are external collaborators: they are passed in as function
parameters.  The lowercase-hex rendering of the digest
(`format!("{digest:x}")`) is modelled concretely. -/

def hexDigit (n : Nat) : Char :=
  if n < 10 then Char.ofNat (48 + n) else Char.ofNat (87 + n)

def byteToLowerHex (b : Nat) : List Char :=
  [hexDigit (b / 16 % 16), hexDigit (b % 16)]

/-- Lowercase-hex rendering of a byte string, two digits per byte. -/
def bytesToLowerHex (bs : List Nat) : String :=
  ⟨(bs.map byteToLowerHex).flatten⟩

structure PrecompiledPolicy where
  precompiled_module : List Nat
  execution_mode : PolicyExecutionMode
  digest : String
deriving DecidableEq, Repr

/-- `PrecompiledPolicy::new`: parse the metadata, run the two load gates,
precompile the module and store the artifact together with its digest. -/
def PrecompiledPolicy.new (kubewardenVersion : Version)
    (sha256 : List Nat → List Nat)
    (engine_precompile_module : List Nat → Except String (List Nat))
    (metadata_from_contents : List Nat → Except String (Option Metadata))
    (policy_contents : List Nat) : Except String PrecompiledPolicy := do
  let policy_metadata ← metadata_from_contents policy_contents
  let metadata := policy_metadata.getD {}
  let execution_mode := metadata.execution_mode
  has_minimum_kubewarden_version kubewardenVersion metadata
  has_valid_protocol_version metadata
  let precompiled_module ← engine_precompile_module policy_contents
  .ok { precompiled_module := precompiled_module
        execution_mode := execution_mode
        digest := bytesToLowerHex (sha256 precompiled_module) }

/-! ## Signature verification (`policy-fetcher/src/verify/mod.rs`)

`Signature::verifier()` (from `verification_constraints.rs`) and
`cosign::verify_constraints` (from the sigstore crate) are external to
the embedded file: they are modelled by a `verifier` parameter that
either fails to build or yields a per-layer matching predicate, a
constraint being satisfied iff its verifier builds and at least one
trusted layer matches it.  `serde_yaml::to_string` is the `toYaml`
parameter. -/

inductive VerifyError where
  | ImageVerificationError (msg : String)
deriving DecidableEq, Repr

structure AnyOfConfig (Sig : Type) where
  minimum_matches : Nat
  signatures : List Sig

structure LatestVerificationConfig (Sig : Type) where
  all_of : Option (List Sig)
  any_of : Option (AnyOfConfig Sig)

/-- A signature constraint is satisfied iff its verifier can be built and
at least one trusted layer matches it. -/
def signatureSatisfied {Sig Layer : Type}
    (verifier : Sig → Except String (Layer → Bool))
    (trusted_layers : List Layer) (s : Sig) : Bool :=
  match verifier s with
  | .ok v => trusted_layers.any v
  | .error _ => false

/-- The `all_of` block of `verify_signatures_against_config`: every
constraint must be satisfied; otherwise fail listing the unsatisfied
ones. -/
def allOfCheck {Sig Layer : Type}
    (verifier : Sig → Except String (Layer → Bool)) (toYaml : Sig → String)
    (all_of : Option (List Sig)) (trusted_layers : List Layer) :
    Except VerifyError Unit :=
  match all_of with
  | some signatures_all_of =>
    let unsatisfied_signatures := signatures_all_of.filter
      (fun s => !(signatureSatisfied verifier trusted_layers s))
    if unsatisfied_signatures.isEmpty then
      .ok ()
    else
      .error (.ImageVerificationError
        (unsatisfied_signatures.foldl (fun acc s => acc ++ toYaml s)
          ("Image verification failed: missing signatures\n"
            ++ "The following constraints were not satisfied:\n")))
  | none => .ok ()

/-- The `any_of` block of `verify_signatures_against_config`: at least
`minimum_matches` constraints must be satisfied; otherwise fail stating
the needed/got counts and listing the unsatisfied constraints. -/
def anyOfCheck {Sig Layer : Type}
    (verifier : Sig → Except String (Layer → Bool)) (toYaml : Sig → String)
    (any_of : Option (AnyOfConfig Sig)) (trusted_layers : List Layer) :
    Except VerifyError Unit :=
  match any_of with
  | some signatures_any_of =>
    let unsatisfied_signatures := signatures_any_of.signatures.filter
      (fun s => !(signatureSatisfied verifier trusted_layers s))
    let num_satisfied_constraints :=
      signatures_any_of.signatures.length - unsatisfied_signatures.length
    let minimum_matches := signatures_any_of.minimum_matches
    if num_satisfied_constraints < minimum_matches then
      .error (.ImageVerificationError
        (unsatisfied_signatures.foldl (fun acc s => acc ++ toYaml s)
          ("Image verification failed: minimum number of signatures not reached: needed "
            ++ toString minimum_matches ++ ", got "
            ++ toString num_satisfied_constraints
            ++ "\nThe following constraints were not satisfied:\n")))
    else
      .ok ()
  | none => .ok ()

/-- `verify_signatures_against_config`: an empty config is an error;
otherwise the `all_of` block runs first and the `any_of` block second. -/
def verify_signatures_against_config {Sig Layer : Type}
    (verifier : Sig → Except String (Layer → Bool)) (toYaml : Sig → String)
    (verification_config : LatestVerificationConfig Sig)
    (trusted_layers : List Layer) : Except VerifyError Unit :=
  if verification_config.all_of.isNone && verification_config.any_of.isNone then
    .error (.ImageVerificationError
      "Image verification failed: no signatures to verify")
  else do
    allOfCheck verifier toYaml verification_config.all_of trusted_layers
    anyOfCheck verifier toYaml verification_config.any_of trusted_layers

/-- `p` occurs as a contiguous substring of `m`. -/
def strSub (p m : String) : Prop :=
  ∃ s t, m.data = s ++ p.data ++ t

/-! ## Kubernetes context-aware client
(`policy-evaluator/src/callback_handler/kubernetes/client.rs` and the
wrappers in `callback_handler/kubernetes.rs`)

The kube discovery API, the reflector watch machinery and the point
`get`/`SubjectAccessReview` calls are external I/O: they are fields of a
`KubeApi` record passed to each operation.  The mutable `Client` is
threaded explicitly: every operation returns its result together with
the updated client state. -/

structure ApiVersionKind where
  api_version : String
  kind : String
deriving DecidableEq, Repr

structure ApiResource where
  group : String
  version : String
  api_version : String
  kind : String
  plural : String
deriving DecidableEq, Repr

structure KubeResource where
  resource : ApiResource
  namespaced : Bool
deriving DecidableEq, Repr

/-- One entry of the discovery API's resource list: its kind, its plural
name and whether it is namespaced. -/
structure APIResourceDesc where
  kind : String
  name : String
  namespaced : Bool
deriving DecidableEq, Repr

structure TypeMeta where
  api_version : String
  kind : String
deriving DecidableEq, Repr

structure ObjectList (Obj : Type) where
  types : TypeMeta
  items : List Obj
deriving DecidableEq, Repr

/-- Modelled from the spec: a `Reflector`
(`callback_handler/kubernetes/reflector.rs` is not among the embedded
sources) holds a watch-maintained mirror of the matching resource set
(`reader`, the store snapshot read by `reader.state()`) and a monotonic
timestamp of the last observed change (`last_change_seen_at`). -/
structure Reflector (Obj : Type) where
  reader : List Obj
  last_change_seen_at : Nat
deriving DecidableEq, Repr

/-- Modelled from the spec: `Reflector::compute_id` identifies a
reflector by `hash(resource, namespace?, label_selector?,
field_selector?)`; modelled as a string encoding of those fields. -/
def Reflector.compute_id (resource : KubeResource)
    (ns label_selector field_selector : Option String) : String :=
  resource.resource.api_version ++ "|" ++ resource.resource.kind ++ "|"
    ++ ns.getD "" ++ "|" ++ label_selector.getD "" ++ "|"
    ++ field_selector.getD ""

/-- The external Kubernetes API surface used by `Client`. -/
structure KubeApi (Obj SAR Status : Type) where
  list_core_api_resources : String → Except String (List APIResourceDesc)
  list_api_group_resources : String → Except String (List APIResourceDesc)
  create_reflector : KubeResource → Option String → Option String →
    Option String → Except String (Reflector Obj)
  get_opt : ApiResource → Option String → String → Except String (Option Obj)
  create_sar : SAR → Except String (Option Status)

/-- The `Client` state: the discovery cache and the reflector map
(hash maps modelled as association lists, newest binding first). -/
structure Client (Obj : Type) where
  kube_resources : List (ApiVersionKind × KubeResource)
  reflectors : List (String × Reflector Obj)
deriving Repr

def lookupA {α β : Type} [DecidableEq α] (k : α) :
    List (α × β) → Option β
  | [] => none
  | (k', v) :: rest => if k = k' then some v else lookupA k rest

def splitOnceAux (c : Char) : List Char → Option (List Char × List Char)
  | [] => none
  | x :: xs =>
    if x = c then some ([], xs)
    else (splitOnceAux c xs).map (fun p => (x :: p.1, p.2))

/-- Rust's `str::split_once`. -/
def splitOnce (s : String) (c : Char) : Option (String × String) :=
  (splitOnceAux c s.data).map (fun p => (⟨p.1⟩, ⟨p.2⟩))

/-- `Client::build_kube_resource`: consult the discovery cache, otherwise
query core (for `v1`) or grouped discovery, resolve the kind, and cache
the result. -/
def build_kube_resource {Obj SAR Status : Type} (api : KubeApi Obj SAR Status)
    (self : Client Obj) (api_version kind : String) :
    Except String KubeResource × Client Obj :=
  match lookupA (⟨api_version, kind⟩ : ApiVersionKind) self.kube_resources with
  | some kr => (.ok kr, self)
  | none =>
    match (if api_version = "v1" then
            api.list_core_api_resources api_version
          else
            match api.list_api_group_resources api_version with
            | .ok l => .ok l
            | .error e => .error ("error finding resource " ++ api_version
                ++ " / " ++ kind ++ ": " ++ e)) with
    | .error e => (.error e, self)
    | .ok resources_list =>
      match resources_list.find? (fun r => r.kind == kind) with
      | none => (.error ("Cannot find resource " ++ api_version ++ "/" ++ kind), self)
      | some resource =>
        match (if api_version = "v1" then some ("", "v1")
               else splitOnce api_version '/') with
        | none => (.error ("cannot determine group and version for " ++ api_version), self)
        | some gv =>
          let kube_resource : KubeResource :=
            { resource :=
                { group := gv.1
                  version := gv.2
                  api_version := api_version
                  kind := kind
                  plural := resource.name }
              namespaced := resource.namespaced }
          (.ok kube_resource,
            { self with kube_resources :=
                (⟨api_version, kind⟩, kube_resource) :: self.kube_resources })

/-- `Client::get_reflector_reader`: reuse the reflector registered under
`reflector_id`, otherwise create one, run it and register it. -/
def get_reflector_reader {Obj SAR Status : Type} (api : KubeApi Obj SAR Status)
    (self : Client Obj) (reflector_id : String) (resource : KubeResource)
    (ns label_selector field_selector : Option String) :
    Except String (List Obj) × Client Obj :=
  match lookupA reflector_id self.reflectors with
  | some reflector => (.ok reflector.reader, self)
  | none =>
    match api.create_reflector resource ns label_selector field_selector with
    | .error e => (.error e, self)
    | .ok reflector =>
      (.ok reflector.reader,
        { self with reflectors := (reflector_id, reflector) :: self.reflectors })

/-- `Client::list_resources_from_reflector`: wrap the reflector snapshot
in an `ObjectList` envelope typed `{api_version, kind ++ "List"}`. -/
def list_resources_from_reflector {Obj SAR Status : Type}
    (api : KubeApi Obj SAR Status) (self : Client Obj) (resource : KubeResource)
    (ns label_selector field_selector : Option String) :
    Except String (ObjectList Obj) × Client Obj :=
  match get_reflector_reader api self
      (Reflector.compute_id resource ns label_selector field_selector)
      resource ns label_selector field_selector with
  | (.error e, self') => (.error e, self')
  | (.ok reader, self') =>
    (.ok { types := { api_version := resource.resource.api_version
                      kind := resource.resource.kind ++ "List" }
           items := reader }, self')

/-- `Client::list_resources_by_namespace`: only namespaced resources can
be listed inside a namespace. -/
def Client.list_resources_by_namespace {Obj SAR Status : Type}
    (api : KubeApi Obj SAR Status) (self : Client Obj) (api_version kind ns : String)
    (label_selector field_selector : Option String) :
    Except String (ObjectList Obj) × Client Obj :=
  match build_kube_resource api self api_version kind with
  | (.error e, self') => (.error e, self')
  | (.ok resource, self') =>
    if !resource.namespaced then
      (.error ("resource " ++ api_version ++ "/" ++ kind
        ++ " is cluster wide. Cannot search for it inside of a namespace"), self')
    else
      list_resources_from_reflector api self' resource (some ns)
        label_selector field_selector

/-- `Client::list_resources_all`. -/
def Client.list_resources_all {Obj SAR Status : Type}
    (api : KubeApi Obj SAR Status) (self : Client Obj) (api_version kind : String)
    (label_selector field_selector : Option String) :
    Except String (ObjectList Obj) × Client Obj :=
  match build_kube_resource api self api_version kind with
  | (.error e, self') => (.error e, self')
  | (.ok resource, self') =>
    list_resources_from_reflector api self' resource none
      label_selector field_selector

/-- `Client::have_reflector_resources_changed_since`: a missing reflector
counts as changed; otherwise compare its last-change timestamp with
`since`. -/
def Client.have_reflector_resources_changed_since {Obj : Type}
    (self : Client Obj) (resource : KubeResource)
    (ns label_selector field_selector : Option String) (since : Nat) : Bool :=
  match lookupA (Reflector.compute_id resource ns label_selector field_selector)
      self.reflectors with
  | some reflector => decide (since < reflector.last_change_seen_at)
  | none => true

/-- `Client::has_list_resources_all_result_changed_since_instant`. -/
def Client.has_list_resources_all_result_changed_since_instant
    {Obj SAR Status : Type} (api : KubeApi Obj SAR Status) (self : Client Obj)
    (api_version kind : String) (label_selector field_selector : Option String)
    (since : Nat) : Except String Bool × Client Obj :=
  match build_kube_resource api self api_version kind with
  | (.error e, self') => (.error e, self')
  | (.ok resource, self') =>
    (.ok (Client.have_reflector_resources_changed_since self' resource none
      label_selector field_selector since), self')

/-- `Client::get_resource`: a point lookup through `Api::get_opt`. -/
def Client.get_resource {Obj SAR Status : Type} (api : KubeApi Obj SAR Status)
    (self : Client Obj) (api_version kind name : String) (ns : Option String) :
    Except String Obj × Client Obj :=
  match build_kube_resource api self api_version kind with
  | (.error e, self') => (.error e, self')
  | (.ok resource, self') =>
    match (if resource.namespaced then
            match ns with
            | some n => .ok (some n)
            | none => .error ("Resource " ++ api_version ++ "/" ++ kind
                ++ " is namespaced, but no namespace was provided")
          else .ok none : Except String (Option String)) with
    | .error e => (.error e, self')
    | .ok scope =>
      match api.get_opt resource.resource scope name with
      | .error e => (.error e, self')
      | .ok (some obj) => (.ok obj, self')
      | .ok none =>
        (.error ("Cannot find " ++ api_version ++ "/" ++ kind ++ " named "
          ++ name), self')

/-- `Client::get_resource_plural_name`. -/
def Client.get_resource_plural_name {Obj SAR Status : Type}
    (api : KubeApi Obj SAR Status) (self : Client Obj) (api_version kind : String) :
    Except String String × Client Obj :=
  match build_kube_resource api self api_version kind with
  | (.error e, self') => (.error e, self')
  | (.ok resource, self') => (.ok resource.resource.plural, self')

/-- `Client::can_i`: create a `SubjectAccessReview` and require a status
in the response. -/
def Client.can_i {Obj SAR Status : Type} (api : KubeApi Obj SAR Status)
    (self : Client Obj) (request : SAR) : Except String Status × Client Obj :=
  match api.create_sar request with
  | .error e => (.error e, self)
  | .ok (some status) => (.ok status, self)
  | .ok none => (.error "SubjectAccessReview did not return a response", self)

/-! ### The wrappers of `callback_handler/kubernetes.rs`

They take an optional client, fail when it is absent, and wrap the value
in a `cached::Return` whose `was_cached` flag they choose. -/

structure CachedReturn (α : Type) where
  was_cached : Bool
  value : α
deriving DecidableEq, Repr

/-- `cached::Return::new`: `was_cached` starts out false. -/
def CachedReturn.new {α : Type} (value : α) : CachedReturn α :=
  { was_cached := false, value := value }

def kubernetes_get_resource {Obj SAR Status : Type} (api : KubeApi Obj SAR Status)
    (client : Option (Client Obj)) (api_version kind name : String)
    (ns : Option String) :
    Except String (CachedReturn Obj) × Option (Client Obj) :=
  match client with
  | none => (.error "kube::Client was not initialized properly", none)
  | some self =>
    match Client.get_resource api self api_version kind name ns with
    | (.error e, self') => (.error e, some self')
    | (.ok value, self') =>
      (.ok { was_cached := false, value := value }, some self')

def kubernetes_get_resource_plural_name {Obj SAR Status : Type}
    (api : KubeApi Obj SAR Status) (client : Option (Client Obj))
    (api_version kind : String) :
    Except String (CachedReturn String) × Option (Client Obj) :=
  match client with
  | none => (.error "kube::Client was not initialized properly", none)
  | some self =>
    match Client.get_resource_plural_name api self api_version kind with
    | (.error e, self') => (.error e, some self')
    | (.ok value, self') =>
      (.ok { was_cached := true, value := value }, some self')

def kubernetes_can_i {Obj SAR Status : Type} (api : KubeApi Obj SAR Status)
    (client : Option (Client Obj)) (request : SAR) :
    Except String (CachedReturn Status) × Option (Client Obj) :=
  match client with
  | none => (.error "kube::Client was not initialized properly", none)
  | some self =>
    match Client.can_i api self request with
    | (.error e, self') => (.error e, some self')
    | (.ok value, self') =>
      (.ok { was_cached := false, value := value }, some self')

def kubernetes_list_resources_all {Obj SAR Status : Type}
    (api : KubeApi Obj SAR Status) (client : Option (Client Obj))
    (api_version kind : String) (label_selector field_selector : Option String) :
    Except String (CachedReturn (ObjectList Obj)) × Option (Client Obj) :=
  match client with
  | none => (.error "kube::Client was not initialized properly", none)
  | some self =>
    match Client.list_resources_all api self api_version kind
        label_selector field_selector with
    | (.error e, self') => (.error e, some self')
    | (.ok value, self') => (.ok (CachedReturn.new value), some self')

/-- Discovery-cache consistency: every cached entry stores back its own
`(api_version, kind)` key.  `build_kube_resource` is the only writer and
always writes consistent entries. -/
def Client.wf {Obj : Type} (self : Client Obj) : Prop :=
  ∀ p ∈ self.kube_resources,
    (p.2).resource.api_version = (p.1).api_version ∧ (p.2).resource.kind = (p.1).kind

/-! ### A small concrete cluster used to exercise the client -/

/-- A toy Kubernetes API: core `v1` knows the namespaced `Service` and
the cluster-wide `Namespace`; reflectors snapshot two objects at
timestamp 7; point gets return object `42`; access reviews answer. -/
def apiNat : KubeApi Nat Unit Unit :=
  { list_core_api_resources := fun _ =>
      .ok [⟨"Service", "services", true⟩, ⟨"Namespace", "namespaces", false⟩]
    list_api_group_resources := fun _ => .error "no such group"
    create_reflector := fun _ _ _ _ => .ok ⟨[10, 20], 7⟩
    get_opt := fun _ _ _ => .ok (some 42)
    create_sar := fun _ => .ok (some ()) }

def serviceRes : KubeResource :=
  ⟨⟨"", "v1", "v1", "Service", "services"⟩, true⟩

def namespaceRes : KubeResource :=
  ⟨⟨"", "v1", "v1", "Namespace", "namespaces"⟩, false⟩

/-! ### Helper lemmas about the sanitised version order -/

@[simp] theorem isOk_ok {ε α : Type _} (a : α) :
    (Except.ok a : Except ε α).isOk = true := rfl

@[simp] theorem isOk_error {ε α : Type _} (e : ε) :
    (Except.error e : Except ε α).isOk = false := rfl

theorem then_eq (o : Ordering) : o.then .eq = o := by
  cases o <;> rfl

theorem except_bind_eq_ok {ε α β : Type _} {x : Except ε α}
    {f : α → Except ε β} {b : β} (h : (x >>= f) = .ok b) :
    ∃ a, x = .ok a ∧ f a = .ok b := by
  cases x with
  | error e => exact Except.noConfusion h
  | ok a => exact ⟨a, rfl, h⟩

theorem sanitized_lt_iff (a1 b1 a2 b2 : Nat) :
    Version.lt ⟨a1, b1, 0, [], ""⟩ ⟨a2, b2, 0, [], ""⟩ = true ↔
      a1 < a2 ∨ (a1 = a2 ∧ b1 < b2) := by
  have hside : (compare (0 : Nat) 0).then
      ((prereleaseCmp [] []).then (compare "" "")) = .eq := rfl
  unfold Version.lt Version.cmp
  simp only [hside, then_eq]
  rcases Nat.lt_trichotomy a1 a2 with h | h | h
  · rw [Nat.compare_eq_lt.2 h]
    exact ⟨fun _ => Or.inl h, fun _ => rfl⟩
  · subst h
    rw [Nat.compare_eq_eq.2 rfl]
    rcases Nat.lt_trichotomy b1 b2 with h2 | h2 | h2
    · rw [Nat.compare_eq_lt.2 h2]
      exact ⟨fun _ => Or.inr ⟨rfl, h2⟩, fun _ => rfl⟩
    · subst h2
      rw [Nat.compare_eq_eq.2 rfl]
      constructor
      · intro hfalse; exact absurd hfalse (by decide)
      · intro h; omega
    · rw [Nat.compare_eq_gt.2 h2]
      constructor
      · intro hfalse; exact absurd hfalse (by decide)
      · intro h; omega
  · rw [Nat.compare_eq_gt.2 h]
    constructor
    · intro hfalse; exact Bool.noConfusion hfalse
    · intro h; omega

/-- C1: the platform-version gate passes iff the declared minimum
`(major, minor)` is lexicographically ≤ the running `(major, minor)`;
a policy with no declared minimum version always passes. -/
theorem version_gate_iff (running : Version) (m : Metadata) :
    (has_minimum_kubewarden_version (KUBEWARDEN_VERSION running) m).isOk = true ↔
      ∀ mv, m.minimum_kubewarden_version = some mv →
        (mv.major < running.major ∨
          (mv.major = running.major ∧ mv.minor ≤ running.minor)) := by
  unfold has_minimum_kubewarden_version KUBEWARDEN_VERSION
  cases hm : m.minimum_kubewarden_version with
  | none => simp
  | some mv =>
    simp only []
    by_cases hlt :
        Version.lt { running with patch := 0, pre := [], build := "" }
          ⟨mv.major, mv.minor, 0, [], ""⟩ = true
    · rw [if_pos hlt]
      have hlt' : running.major < mv.major ∨
          (running.major = mv.major ∧ running.minor < mv.minor) :=
        (sanitized_lt_iff running.major running.minor mv.major mv.minor).1 hlt
      constructor
      · intro h; simp at h
      · intro h
        have := h mv rfl
        exfalso; omega
    · rw [if_neg hlt]
      have hge : ¬ (running.major < mv.major ∨
          (running.major = mv.major ∧ running.minor < mv.minor)) := fun hc =>
        hlt ((sanitized_lt_iff running.major running.minor mv.major mv.minor).2 hc)
      constructor
      · intro _ v hv
        cases Option.some.inj hv
        omega
      · intro _
        rfl

/-- C5: the protocol-version gate passes iff: whenever the execution mode
is `KubewardenWapc`, the metadata's protocol version is `some V1`; all
other execution modes pass regardless of the protocol-version field. -/
theorem protocol_gate_iff (m : Metadata) :
    (has_valid_protocol_version m).isOk = true ↔
      (m.execution_mode = PolicyExecutionMode.KubewardenWapc →
        m.protocol_version = some ProtocolVersion.V1) := by
  unfold has_valid_protocol_version
  by_cases hmode : m.execution_mode = PolicyExecutionMode.KubewardenWapc
  · simp only [hmode, if_true]
    cases hp : m.protocol_version with
    | none => simp [hp]
    | some pv => cases pv <;> simp [hp]
  · simp [hmode]

/-- C6: the digest of a successfully loaded policy is the lowercase-hex
SHA-256 of the precompiled artifact stored in the same structure. -/
theorem precompiled_digest_eq (kubewardenVersion : Version)
    (sha256 : List Nat → List Nat)
    (engine_precompile_module : List Nat → Except String (List Nat))
    (metadata_from_contents : List Nat → Except String (Option Metadata))
    (policy_contents : List Nat) (p : PrecompiledPolicy)
    (h : PrecompiledPolicy.new kubewardenVersion sha256 engine_precompile_module
          metadata_from_contents policy_contents = .ok p) :
    p.digest = bytesToLowerHex (sha256 p.precompiled_module) := by
  unfold PrecompiledPolicy.new at h
  obtain ⟨md, hmd, h⟩ := except_bind_eq_ok h
  obtain ⟨u1, hu1, h⟩ := except_bind_eq_ok h
  obtain ⟨u2, hu2, h⟩ := except_bind_eq_ok h
  obtain ⟨art, hart, h⟩ := except_bind_eq_ok h
  cases Except.ok.inj h
  rfl

/-- Witness for C6: a concrete successful load. -/
theorem precompiled_digest_eq_witness :
    ({ precompiled_module := [171], execution_mode := .Opa, digest := "07" }
        : PrecompiledPolicy).digest
      = bytesToLowerHex ((fun _ => [7]) ([171] : List Nat)) :=
  precompiled_digest_eq ⟨1, 0, 0, [], ""⟩ (fun _ => [7]) (fun c => .ok c)
    (fun _ => .ok (some { execution_mode := .Opa })) [171]
    { precompiled_module := [171], execution_mode := .Opa, digest := "07" }
    (by rfl)

theorem string_data_append (a b : String) : (a ++ b).data = a.data ++ b.data := rfl

theorem strSub_append_right (p m x : String) (h : strSub p m) :
    strSub p (m ++ x) := by
  obtain ⟨s, t, hst⟩ := h
  exact ⟨s, t ++ x.data, by rw [string_data_append, hst]; simp⟩

theorem strSub_foldl {Sig : Type} (f : Sig → String) (l : List Sig)
    (init : String) (p : String) (h : strSub p init) :
    strSub p (l.foldl (fun acc s => acc ++ f s) init) := by
  induction l generalizing init with
  | nil => exact h
  | cons a t ih => exact ih (init ++ f a) (strSub_append_right p init (f a) h)

theorem strSub_mem_foldl {Sig : Type} (f : Sig → String) (l : List Sig)
    (init : String) (s : Sig) (hs : s ∈ l) :
    strSub (f s) (l.foldl (fun acc x => acc ++ f x) init) := by
  induction l generalizing init with
  | nil => cases hs
  | cons a t ih =>
    rcases List.mem_cons.1 hs with h | h
    · subst h
      exact strSub_foldl f t (init ++ f s) (f s)
        ⟨init.data, [], by rw [string_data_append]; simp⟩
    · exact ih (init ++ f a) h

/-- C2: with `all_of` present and `any_of` absent, verification succeeds
iff every constraint in the `all_of` list is satisfied by some trusted
layer; on failure the result is an image-verification error whose
message lists every unsatisfied constraint. -/
theorem all_of_verify_iff {Sig Layer : Type}
    (verifier : Sig → Except String (Layer → Bool)) (toYaml : Sig → String)
    (sigs : List Sig) (trusted_layers : List Layer) :
    (verify_signatures_against_config verifier toYaml ⟨some sigs, none⟩
        trusted_layers = .ok () ↔
      ∀ s ∈ sigs, signatureSatisfied verifier trusted_layers s = true) ∧
    ((∃ s ∈ sigs, signatureSatisfied verifier trusted_layers s = false) →
      ∃ msg, verify_signatures_against_config verifier toYaml ⟨some sigs, none⟩
          trusted_layers = .error (.ImageVerificationError msg) ∧
        ∀ s ∈ sigs, signatureSatisfied verifier trusted_layers s = false →
          strSub (toYaml s) msg) := by
  have hv : verify_signatures_against_config verifier toYaml ⟨some sigs, none⟩
      trusted_layers =
      allOfCheck verifier toYaml (some sigs) trusted_layers >>=
        fun _ => .ok () := rfl
  have ha : allOfCheck verifier toYaml (some sigs) trusted_layers =
      if (sigs.filter (fun s => !(signatureSatisfied verifier trusted_layers s))).isEmpty
      then .ok ()
      else .error (.ImageVerificationError
        ((sigs.filter (fun s => !(signatureSatisfied verifier trusted_layers s))).foldl
          (fun acc s => acc ++ toYaml s)
          ("Image verification failed: missing signatures\n"
            ++ "The following constraints were not satisfied:\n"))) := rfl
  by_cases hu :
      (sigs.filter (fun s => !(signatureSatisfied verifier trusted_layers s))).isEmpty = true
  · have hok : verify_signatures_against_config verifier toYaml ⟨some sigs, none⟩
        trusted_layers = .ok () := by
      rw [hv, ha, if_pos hu]
      rfl
    have hall : ∀ s ∈ sigs, signatureSatisfied verifier trusted_layers s = true := by
      intro s hs
      have hnil := List.isEmpty_iff.1 hu
      have := (List.filter_eq_nil_iff.1 hnil) s hs
      simpa using this
    refine ⟨⟨fun _ => hall, fun _ => hok⟩, ?_⟩
    rintro ⟨s, hs, hsf⟩
    exact absurd (hall s hs) (by simp [hsf])
  · have herr : verify_signatures_against_config verifier toYaml ⟨some sigs, none⟩
        trusted_layers = .error (.ImageVerificationError
          ((sigs.filter (fun s => !(signatureSatisfied verifier trusted_layers s))).foldl
            (fun acc s => acc ++ toYaml s)
            ("Image verification failed: missing signatures\n"
              ++ "The following constraints were not satisfied:\n"))) := by
      rw [hv, ha, if_neg hu]
      rfl
    constructor
    · constructor
      · intro h
        rw [herr] at h
        exact Except.noConfusion h
      · intro hall
        exfalso
        apply hu
        rw [List.isEmpty_iff, List.filter_eq_nil_iff]
        intro s hs
        simp [hall s hs]
    · intro _
      refine ⟨_, herr, ?_⟩
      intro s hs hsf
      exact strSub_mem_foldl toYaml _ _ s
        (List.mem_filter.2 ⟨hs, by simp [hsf]⟩)

/-- Witness for C2: two constraints, one trusted layer matching only the
first; the verifier fails and the unsatisfied constraint appears in the
message. -/
theorem all_of_verify_iff_witness :
    ∃ msg, verify_signatures_against_config
        (fun s : Nat => .ok (fun l : Nat => l == s)) (fun s => toString s)
        ⟨some [1, 2], none⟩ [1]
        = .error (.ImageVerificationError msg) ∧
      ∀ s ∈ [1, 2],
        signatureSatisfied (fun s : Nat => .ok (fun l : Nat => l == s)) [1] s = false →
          strSub (toString s) msg :=
  (all_of_verify_iff (fun s : Nat => .ok (fun l : Nat => l == s))
    (fun s => toString s) [1, 2] [1]).2 ⟨2, by decide, by decide⟩

/-- C3: with `any_of` present (minimum `mm`, constraints `sigs`) and
`all_of` absent, verification succeeds iff at least `mm` of the
constraints are satisfied; on failure the message states the needed and
obtained counts and lists the unsatisfied constraints. -/
theorem any_of_verify_iff {Sig Layer : Type}
    (verifier : Sig → Except String (Layer → Bool)) (toYaml : Sig → String)
    (mm : Nat) (sigs : List Sig) (trusted_layers : List Layer) :
    (verify_signatures_against_config verifier toYaml ⟨none, some ⟨mm, sigs⟩⟩
        trusted_layers = .ok () ↔
      mm ≤ (sigs.filter (fun s => signatureSatisfied verifier trusted_layers s)).length) ∧
    ((sigs.filter (fun s => signatureSatisfied verifier trusted_layers s)).length < mm →
      ∃ msg, verify_signatures_against_config verifier toYaml ⟨none, some ⟨mm, sigs⟩⟩
          trusted_layers = .error (.ImageVerificationError msg) ∧
        strSub ("needed " ++ toString mm ++ ", got "
          ++ toString (sigs.filter (fun s => signatureSatisfied verifier trusted_layers s)).length)
          msg ∧
        ∀ s ∈ sigs, signatureSatisfied verifier trusted_layers s = false →
          strSub (toYaml s) msg) := by
  have hcount : sigs.length -
      (sigs.filter (fun s => !(signatureSatisfied verifier trusted_layers s))).length =
      (sigs.filter (fun s => signatureSatisfied verifier trusted_layers s)).length := by
    have h := List.length_eq_length_filter_add
      (l := sigs) (fun s => signatureSatisfied verifier trusted_layers s)
    omega
  have hv : verify_signatures_against_config verifier toYaml ⟨none, some ⟨mm, sigs⟩⟩
      trusted_layers =
      anyOfCheck verifier toYaml (some ⟨mm, sigs⟩) trusted_layers := rfl
  have ha : anyOfCheck verifier toYaml (some ⟨mm, sigs⟩) trusted_layers =
      if sigs.length -
          (sigs.filter (fun s => !(signatureSatisfied verifier trusted_layers s))).length < mm
      then .error (.ImageVerificationError
        ((sigs.filter (fun s => !(signatureSatisfied verifier trusted_layers s))).foldl
          (fun acc s => acc ++ toYaml s)
          ("Image verification failed: minimum number of signatures not reached: needed "
            ++ toString mm ++ ", got "
            ++ toString (sigs.length -
              (sigs.filter (fun s => !(signatureSatisfied verifier trusted_layers s))).length)
            ++ "\nThe following constraints were not satisfied:\n")))
      else .ok () := rfl
  rw [hv, ha, hcount]
  by_cases hlt :
      (sigs.filter (fun s => signatureSatisfied verifier trusted_layers s)).length < mm
  · rw [if_pos hlt]
    constructor
    · constructor
      · intro h; exact Except.noConfusion h
      · intro h; omega
    · intro _
      refine ⟨_, rfl, ?_, ?_⟩
      · refine strSub_foldl _ _ _ _ ?_
        refine ⟨("Image verification failed: minimum number of signatures not reached: " ++ "").data,
          "\nThe following constraints were not satisfied:\n".data, ?_⟩
        simp only [← string_data_append]
        congr 1
      · intro s hs hsf
        exact strSub_mem_foldl toYaml _ _ s
          (List.mem_filter.2 ⟨hs, by simp [hsf]⟩)
  · rw [if_neg hlt]
    constructor
    · exact ⟨fun _ => by omega, fun _ => rfl⟩
    · intro h; omega

/-- Witness for C3: minimum 2 with three constraints and one matching
layer; verification fails, the message states "needed 2, got 1" and
lists the two unsatisfied constraints. -/
theorem any_of_verify_iff_witness :
    ∃ msg, verify_signatures_against_config
        (fun s : Nat => .ok (fun l : Nat => l == s)) (fun s => toString s)
        ⟨none, some ⟨2, [1, 2, 3]⟩⟩ [1]
        = .error (.ImageVerificationError msg) ∧
      strSub ("needed " ++ toString 2 ++ ", got "
        ++ toString ([1, 2, 3].filter
          (fun s => signatureSatisfied (fun s : Nat => .ok (fun l : Nat => l == s)) [1] s)).length)
        msg ∧
      ∀ s ∈ [1, 2, 3],
        signatureSatisfied (fun s : Nat => .ok (fun l : Nat => l == s)) [1] s = false →
          strSub (toString s) msg :=
  (any_of_verify_iff (fun s : Nat => .ok (fun l : Nat => l == s))
    (fun s => toString s) 2 [1, 2, 3] [1]).2 (by decide)

/-- C8: a config with neither `all_of` nor `any_of` is rejected with the
"no signatures to verify" image-verification error, whatever the trusted
layers are. -/
theorem empty_config_verify_error {Sig Layer : Type}
    (verifier : Sig → Except String (Layer → Bool)) (toYaml : Sig → String)
    (trusted_layers : List Layer) :
    verify_signatures_against_config verifier toYaml ⟨none, none⟩ trusted_layers
      = .error (.ImageVerificationError
          "Image verification failed: no signatures to verify") := rfl

/-! ### Helper lemmas about the client state -/

theorem lookupA_mem {α β : Type} [DecidableEq α] {k : α} {v : β} :
    ∀ {l : List (α × β)}, lookupA k l = some v → (k, v) ∈ l := by
  intro l
  induction l with
  | nil => intro h; exact Option.noConfusion h
  | cons p rest ih =>
    intro h
    rcases p with ⟨k', v'⟩
    by_cases hk : k = k'
    · rw [lookupA, if_pos hk] at h
      cases Option.some.inj h
      subst hk
      exact List.mem_cons_self _ _
    · rw [lookupA, if_neg hk] at h
      exact List.mem_cons_of_mem _ (ih h)

/-- `build_kube_resource` only touches the discovery cache, never the
reflector map. -/
theorem build_preserves_reflectors {Obj SAR Status : Type}
    (api : KubeApi Obj SAR Status) (self : Client Obj) (api_version kind : String) :
    (build_kube_resource api self api_version kind).2.reflectors = self.reflectors := by
  unfold build_kube_resource
  repeat' split
  all_goals rfl

theorem build_resolves {Obj SAR Status : Type} (api : KubeApi Obj SAR Status)
    (self : Client Obj) (api_version kind : String) (resource : KubeResource)
    (self' : Client Obj) (hwf : Client.wf self)
    (hb : build_kube_resource api self api_version kind = (.ok resource, self')) :
    resource.resource.api_version = api_version ∧ resource.resource.kind = kind := by
  unfold build_kube_resource at hb
  split at hb
  · rename_i kr hl
    rw [Prod.mk.injEq] at hb
    obtain ⟨h1, -⟩ := hb
    cases Except.ok.inj h1
    exact hwf _ (lookupA_mem hl)
  · split at hb
    · simp at hb
    · split at hb
      · simp at hb
      · split at hb
        · simp at hb
        · rw [Prod.mk.injEq] at hb
          obtain ⟨h1, -⟩ := hb
          cases Except.ok.inj h1
          exact ⟨rfl, rfl⟩

theorem get_reader_spec {Obj SAR Status : Type} (api : KubeApi Obj SAR Status)
    (self : Client Obj) (reflector_id : String) (resource : KubeResource)
    (ns label_selector field_selector : Option String)
    (reader : List Obj) (self' : Client Obj)
    (h : get_reflector_reader api self reflector_id resource ns label_selector
        field_selector = (.ok reader, self')) :
    ∃ r, lookupA reflector_id self'.reflectors = some r ∧ r.reader = reader := by
  unfold get_reflector_reader at h
  split at h
  · rename_i reflector hl
    rw [Prod.mk.injEq] at h
    obtain ⟨h1, h2⟩ := h
    cases Except.ok.inj h1
    subst h2
    exact ⟨reflector, hl, rfl⟩
  · rename_i hl
    split at h
    · simp at h
    · rename_i reflector hc
      rw [Prod.mk.injEq] at h
      obtain ⟨h1, h2⟩ := h
      cases Except.ok.inj h1
      subst h2
      refine ⟨reflector, ?_, rfl⟩
      simp [lookupA]

theorem from_reflector_spec {Obj SAR Status : Type} (api : KubeApi Obj SAR Status)
    (self : Client Obj) (resource : KubeResource)
    (ns label_selector field_selector : Option String)
    (lst : ObjectList Obj) (self' : Client Obj)
    (h : list_resources_from_reflector api self resource ns label_selector
        field_selector = (.ok lst, self')) :
    lst.types.api_version = resource.resource.api_version ∧
    lst.types.kind = resource.resource.kind ++ "List" ∧
    ∃ r, lookupA (Reflector.compute_id resource ns label_selector field_selector)
        self'.reflectors = some r ∧ lst.items = r.reader := by
  unfold list_resources_from_reflector at h
  split at h
  · simp at h
  · rename_i reader self'' hg
    rw [Prod.mk.injEq] at h
    obtain ⟨h1, h2⟩ := h
    cases Except.ok.inj h1
    subst h2
    obtain ⟨r, hr, hrr⟩ := get_reader_spec api self _ resource ns label_selector
      field_selector reader self'' hg
    exact ⟨rfl, rfl, r, hr, hrr.symm⟩

/-- C4: the change-detection query answers true iff the reflector for the
resource/selector combination does not exist yet, or its last-change
timestamp is strictly greater than `since`; before any reflector exists
it always answers true. -/
theorem changed_since_iff {Obj SAR Status : Type} (api : KubeApi Obj SAR Status)
    (self : Client Obj) (api_version kind : String)
    (label_selector field_selector : Option String) (since : Nat)
    (resource : KubeResource) (self' self'' : Client Obj) (b : Bool)
    (hb : build_kube_resource api self api_version kind = (.ok resource, self'))
    (h : Client.has_list_resources_all_result_changed_since_instant api self
        api_version kind label_selector field_selector since = (.ok b, self'')) :
    (b = true ↔
      (lookupA (Reflector.compute_id resource none label_selector field_selector)
          self.reflectors = none ∨
        ∃ r, lookupA (Reflector.compute_id resource none label_selector field_selector)
            self.reflectors = some r ∧ since < r.last_change_seen_at)) ∧
    (self.reflectors = [] → b = true) := by
  have hrefl : self'.reflectors = self.reflectors := by
    have hp := build_preserves_reflectors api self api_version kind
    rw [hb] at hp
    exact hp
  unfold Client.has_list_resources_all_result_changed_since_instant at h
  split at h
  · rename_i e st hx
    rw [hb] at hx
    simp at hx
  · rename_i res1 st1 hx
    rw [hb, Prod.mk.injEq] at hx
    obtain ⟨hx1, hx2⟩ := hx
    cases Except.ok.inj hx1
    subst hx2
    rw [Prod.mk.injEq] at h
    obtain ⟨h1, -⟩ := h
    have hbv := (Except.ok.inj h1).symm
    subst hbv
    unfold Client.have_reflector_resources_changed_since
    rw [hrefl]
    cases hl : lookupA (Reflector.compute_id resource none label_selector
        field_selector) self.reflectors with
    | none =>
      exact ⟨⟨fun _ => Or.inl rfl, fun _ => rfl⟩, fun _ => rfl⟩
    | some r =>
      constructor
      · rw [decide_eq_true_iff]
        constructor
        · intro hlt; exact Or.inr ⟨r, rfl, hlt⟩
        · rintro (hnone | ⟨r', hr', hlt⟩)
          · exact Option.noConfusion hnone
          · cases Option.some.inj hr'; exact hlt
      · intro hnil
        rw [hnil] at hl
        simp [lookupA] at hl

/-- Witness for C4: a fresh client (no reflector yet) answers true. -/
theorem changed_since_iff_witness :
    (true = true ↔
      ((none : Option (Reflector Nat)) = none ∨
        ∃ r : Reflector Nat, (none : Option (Reflector Nat)) = some r ∧
          5 < r.last_change_seen_at)) ∧
    (([] : List (String × Reflector Nat)) = [] → true = true) :=
  changed_since_iff apiNat ⟨[], []⟩ "v1" "Service" none none 5 serviceRes
    ⟨[(⟨"v1", "Service"⟩, serviceRes)], []⟩
    ⟨[(⟨"v1", "Service"⟩, serviceRes)], []⟩ true (by rfl) (by rfl)

/-- C7: a successful list (all or by namespace) returns a `{api_version,
kind ++ "List"}` envelope whose items are exactly the snapshot of the
reflector registered for the query. -/
theorem list_envelope_spec {Obj SAR Status : Type} (api : KubeApi Obj SAR Status)
    (self : Client Obj) (api_version kind : String)
    (label_selector field_selector : Option String) (hwf : Client.wf self) :
    (∀ (lst : ObjectList Obj) (self'' : Client Obj),
      Client.list_resources_all api self api_version kind label_selector
          field_selector = (.ok lst, self'') →
        lst.types.api_version = api_version ∧ lst.types.kind = kind ++ "List" ∧
        ∃ resource r,
          (build_kube_resource api self api_version kind).1 = .ok resource ∧
          lookupA (Reflector.compute_id resource none label_selector field_selector)
            self''.reflectors = some r ∧
          lst.items = r.reader) ∧
    (∀ (ns : String) (lst : ObjectList Obj) (self'' : Client Obj),
      Client.list_resources_by_namespace api self api_version kind ns
          label_selector field_selector = (.ok lst, self'') →
        lst.types.api_version = api_version ∧ lst.types.kind = kind ++ "List" ∧
        ∃ resource r,
          (build_kube_resource api self api_version kind).1 = .ok resource ∧
          lookupA (Reflector.compute_id resource (some ns) label_selector field_selector)
            self''.reflectors = some r ∧
          lst.items = r.reader) := by
  constructor
  · intro lst self'' h
    unfold Client.list_resources_all at h
    split at h
    · simp at h
    · rename_i res1 st1 hx
      obtain ⟨he1, he2, r, hr, hi⟩ := from_reflector_spec api st1 res1 none
        label_selector field_selector lst self'' h
      obtain ⟨ha, hk⟩ := build_resolves api self api_version kind res1 st1 hwf hx
      refine ⟨by rw [he1, ha], by rw [he2, hk], res1, r, by rw [hx], hr, hi⟩
  · intro ns lst self'' h
    unfold Client.list_resources_by_namespace at h
    split at h
    · simp at h
    · rename_i res1 st1 hx
      split at h
      · simp at h
      · obtain ⟨he1, he2, r, hr, hi⟩ := from_reflector_spec api st1 res1 (some ns)
          label_selector field_selector lst self'' h
        obtain ⟨ha, hk⟩ := build_resolves api self api_version kind res1 st1 hwf hx
        refine ⟨by rw [he1, ha], by rw [he2, hk], res1, r, by rw [hx], hr, hi⟩

/-- Witness for C7: listing `(v1, Service)` on a fresh client yields a
`ServiceList` envelope carrying the reflector snapshot. -/
theorem list_envelope_spec_witness :
    (⟨⟨"v1", "ServiceList"⟩, [10, 20]⟩ : ObjectList Nat).types.api_version = "v1" ∧
    (⟨⟨"v1", "ServiceList"⟩, [10, 20]⟩ : ObjectList Nat).types.kind = "Service" ++ "List" ∧
    ∃ resource r,
      (build_kube_resource apiNat (⟨[], []⟩ : Client Nat) "v1" "Service").1
        = .ok resource ∧
      lookupA (Reflector.compute_id resource none none none)
        (⟨[(⟨"v1", "Service"⟩, serviceRes)],
          [(Reflector.compute_id serviceRes none none none, ⟨[10, 20], 7⟩)]⟩
          : Client Nat).reflectors = some r ∧
      (⟨⟨"v1", "ServiceList"⟩, [10, 20]⟩ : ObjectList Nat).items = r.reader :=
  (list_envelope_spec apiNat ⟨[], []⟩ "v1" "Service" none none
      (by intro p hp; cases hp)).1
    ⟨⟨"v1", "ServiceList"⟩, [10, 20]⟩
    ⟨[(⟨"v1", "Service"⟩, serviceRes)],
      [(Reflector.compute_id serviceRes none none none, ⟨[10, 20], 7⟩)]⟩
    (by rfl)

/-- C9: listing a cluster-wide resource by namespace fails with the
"cluster wide" error and leaves the reflector map untouched, whatever
the namespace and selectors are. -/
theorem by_namespace_cluster_wide_error {Obj SAR Status : Type}
    (api : KubeApi Obj SAR Status) (self : Client Obj)
    (api_version kind ns : String) (label_selector field_selector : Option String)
    (resource : KubeResource) (self' : Client Obj)
    (hb : build_kube_resource api self api_version kind = (.ok resource, self'))
    (hns : resource.namespaced = false) :
    (Client.list_resources_by_namespace api self api_version kind ns
        label_selector field_selector).1
      = .error ("resource " ++ api_version ++ "/" ++ kind
          ++ " is cluster wide. Cannot search for it inside of a namespace") ∧
    (Client.list_resources_by_namespace api self api_version kind ns
        label_selector field_selector).2.reflectors = self.reflectors := by
  have hrefl : self'.reflectors = self.reflectors := by
    have hp := build_preserves_reflectors api self api_version kind
    rw [hb] at hp
    exact hp
  unfold Client.list_resources_by_namespace
  split
  · rename_i e st hx
    rw [hb] at hx
    simp at hx
  · rename_i res1 st1 hx
    rw [hb, Prod.mk.injEq] at hx
    obtain ⟨hx1, hx2⟩ := hx
    cases Except.ok.inj hx1
    subst hx2
    rw [hns, if_pos (show (!false) = true from rfl)]
    exact ⟨rfl, hrefl⟩

/-- Witness for C9: `(v1, Namespace)` is cluster wide; listing it inside
`default` fails. -/
theorem by_namespace_cluster_wide_error_witness :
    (Client.list_resources_by_namespace apiNat (⟨[], []⟩ : Client Nat) "v1"
        "Namespace" "default" none none).1
      = .error ("resource " ++ "v1" ++ "/" ++ "Namespace"
          ++ " is cluster wide. Cannot search for it inside of a namespace") ∧
    (Client.list_resources_by_namespace apiNat (⟨[], []⟩ : Client Nat) "v1"
        "Namespace" "default" none none).2.reflectors
      = (⟨[], []⟩ : Client Nat).reflectors :=
  by_namespace_cluster_wide_error apiNat ⟨[], []⟩ "v1" "Namespace" "default"
    none none namespaceRes ⟨[(⟨"v1", "Namespace"⟩, namespaceRes)], []⟩
    (by rfl) rfl

/-- C10: every successful `get_resource_plural_name` reports
`was_cached = true`, while the un-memoised `get_resource` and `can_i`
always report `was_cached = false`. -/
theorem cached_flags (Obj SAR Status : Type) :
    (∀ (api : KubeApi Obj SAR Status) (client : Option (Client Obj))
        (api_version kind : String) (r : CachedReturn String)
        (c' : Option (Client Obj)),
      kubernetes_get_resource_plural_name api client api_version kind
          = (.ok r, c') → r.was_cached = true) ∧
    (∀ (api : KubeApi Obj SAR Status) (client : Option (Client Obj))
        (api_version kind name : String) (ns : Option String)
        (r : CachedReturn Obj) (c' : Option (Client Obj)),
      kubernetes_get_resource api client api_version kind name ns
          = (.ok r, c') → r.was_cached = false) ∧
    (∀ (api : KubeApi Obj SAR Status) (client : Option (Client Obj))
        (request : SAR) (r : CachedReturn Status) (c' : Option (Client Obj)),
      kubernetes_can_i api client request = (.ok r, c') →
        r.was_cached = false) := by
  refine ⟨?_, ?_, ?_⟩
  · intro api client api_version kind r c' h
    unfold kubernetes_get_resource_plural_name at h
    split at h
    · simp at h
    · split at h
      · simp at h
      · rw [Prod.mk.injEq] at h
        obtain ⟨h1, -⟩ := h
        cases Except.ok.inj h1
        rfl
  · intro api client api_version kind name ns r c' h
    unfold kubernetes_get_resource at h
    split at h
    · simp at h
    · split at h
      · simp at h
      · rw [Prod.mk.injEq] at h
        obtain ⟨h1, -⟩ := h
        cases Except.ok.inj h1
        rfl
  · intro api client request r c' h
    unfold kubernetes_can_i at h
    split at h
    · simp at h
    · split at h
      · simp at h
      · rw [Prod.mk.injEq] at h
        obtain ⟨h1, -⟩ := h
        cases Except.ok.inj h1
        rfl

/-- Witness for C10: concrete successful calls with the expected flags. -/
theorem cached_flags_witness :
    ({ was_cached := true, value := "services" } : CachedReturn String).was_cached
        = true ∧
    ({ was_cached := false, value := 42 } : CachedReturn Nat).was_cached = false ∧
    ({ was_cached := false, value := () } : CachedReturn Unit).was_cached = false :=
  ⟨(cached_flags Nat Unit Unit).1 apiNat (some ⟨[], []⟩) "v1" "Service"
      { was_cached := true, value := "services" }
      (some ⟨[(⟨"v1", "Service"⟩, serviceRes)], []⟩) (by rfl),
   (cached_flags Nat Unit Unit).2.1 apiNat (some ⟨[], []⟩) "v1" "Service"
      "kube-dns" (some "kube-system") { was_cached := false, value := 42 }
      (some ⟨[(⟨"v1", "Service"⟩, serviceRes)], []⟩) (by rfl),
   (cached_flags Nat Unit Unit).2.2 apiNat (some ⟨[], []⟩) ()
      { was_cached := false, value := () } (some ⟨[], []⟩) (by rfl)⟩

end Kubewarden
